import Mathlib

/-!
Shallow embedding of the Telegram platform adapter
(`TelegramPlatform` class) of the Personal-bot repository, together with
proofs of the specification claims about it.

Modelling conventions:
- TypeScript optional / possibly-absent fields become `Option`.
- JavaScript falsiness on strings (`s || d`) is modelled by `orElseStr`
  (empty string counts as absent); on numbers, `0` counts as absent.
- `async` methods that can throw become functions into `Except String _`
  (parse paths) or explicit outcome values (send paths); exceptions that
  the source catches and swallows are folded into the return value
  exactly where the `catch` sits in the source.
- External effects are oracles passed as parameters: `resolve` stands for
  `bot.telegram.getFile` (`none` = the call failed / threw), the Boolean
  `nativeFails` / `constructFails` flags stand for the wrapped native
  client call throwing, and `now` stands for `Date.now()`.
- Floating-point coordinates of location updates are carried opaquely as
  their decimal renderings (the adapter only ever interpolates them into
  strings).
-/

namespace PersonalBot

/-- JavaScript `s || d` for an optional string field: absent or empty
picks the default. -/
def orElseStr (s : Option String) (d : String) : String :=
  match s with
  | some v => if v = "" then d else v
  | none => d

inductive Platform where
  | TELEGRAM
  deriving DecidableEq, Repr

inductive MessageType where
  | TEXT
  | IMAGE
  | AUDIO
  | VIDEO
  | DOCUMENT
  | STICKER
  | LOCATION
  | CONTACT
  deriving DecidableEq, Repr

/-- Domain attachment (`Attachment` in `@/types`). -/
structure Attachment where
  id : String
  type : MessageType
  url : String
  filename : Option String := none
  mimeType : Option String := none
  size : Option Nat := none
  deriving DecidableEq, Repr

/-- The metadata bag built by `parseMessage` (only the fields the adapter
ever writes). -/
structure MessageMeta where
  chatId : Option Int := none
  chatType : Option String := none
  messageId : Option Nat := none
  latitude : Option String := none
  longitude : Option String := none
  phoneNumber : Option String := none
  firstName : Option String := none
  lastName : Option String := none
  contactUserId : Option Nat := none
  deriving DecidableEq, Repr

/-- Domain message (`Message` in `@/types`). -/
structure Message where
  id : String
  userId : String
  platform : Platform
  type : MessageType
  content : String
  metadata : MessageMeta
  attachments : List Attachment
  isFromBot : Bool
  createdAt : Nat
  processed : Bool
  deriving DecidableEq, Repr

inductive UserRole where
  | USER
  | MODERATOR
  | ADMIN
  | SUPER_ADMIN
  deriving DecidableEq, Repr

structure Preferences where
  language : String
  timezone : String
  notifications : Bool
  aiEnabled : Bool
  voiceEnabled : Bool
  deriving DecidableEq, Repr

/-- Domain user (`User` in `@/types`; the three timestamps, all set to
"now", are omitted — no claim mentions them). -/
structure User where
  id : String
  platformId : String
  platform : Platform
  username : Option String
  firstName : String
  lastName : Option String
  role : UserRole
  isBlocked : Bool
  preferences : Preferences
  deriving DecidableEq, Repr

/-- `PlatformError` of the error taxonomy. -/
structure PlatformError where
  message : String
  platform : Platform
  deriving DecidableEq, Repr

/-! Raw Telegram update objects (the shapes `parseMessage` reads). -/

structure TgUser where
  id : Nat
  first_name : String
  last_name : Option String := none
  username : Option String := none
  language_code : Option String := none
  deriving DecidableEq, Repr

structure PhotoSize where
  file_id : String
  width : Nat
  height : Nat
  file_size : Option Nat := none
  deriving DecidableEq, Repr

structure TgVoice where
  file_id : String
  mime_type : Option String := none
  file_size : Option Nat := none
  deriving DecidableEq, Repr

structure TgDocument where
  file_id : String
  file_name : Option String := none
  mime_type : Option String := none
  file_size : Option Nat := none
  deriving DecidableEq, Repr

structure TgSticker where
  file_id : String
  emoji : Option String := none
  deriving DecidableEq, Repr

structure TgLocation where
  latitude : String
  longitude : String
  deriving DecidableEq, Repr

structure TgContact where
  phone_number : String
  first_name : String
  last_name : Option String := none
  user_id : Option Nat := none
  deriving DecidableEq, Repr

/-- A raw Telegram message: `'x' in ctx.message` is field presence, so
each payload kind is an `Option` field. -/
structure TgMessage where
  message_id : Nat
  text : Option String := none
  photo : Option (List PhotoSize) := none
  caption : Option String := none
  voice : Option TgVoice := none
  document : Option TgDocument := none
  sticker : Option TgSticker := none
  location : Option TgLocation := none
  contact : Option TgContact := none
  deriving DecidableEq, Repr

structure TgChat where
  id : Int
  type : String
  deriving DecidableEq, Repr

/-- The Telegraf `Context` fields the adapter reads (`ctx.message`,
`ctx.from`, `ctx.chat`). -/
structure Ctx where
  message : Option TgMessage := none
  fromUser : Option TgUser := none
  chat : Option TgChat := none
  deriving DecidableEq, Repr

/-! Adapter state and configuration. -/

/-- The native Telegraf client, opaque except for the token it was
constructed with. -/
structure Telegraf where
  token : String
  deriving DecidableEq, Repr

structure TelegramConfig where
  enabled : Bool
  botToken : String
  webhookUrl : Option String := none
  allowedUsers : Option (List String) := none
  deriving DecidableEq, Repr

/-- The mutable fields of the `TelegramPlatform` class:
`bot : Telegraf | null` and `isRunning : boolean`. -/
structure TelegramPlatform where
  config : TelegramConfig
  bot : Option Telegraf := none
  isRunning : Bool := false
  deriving DecidableEq, Repr

/-- `isActive()`. -/
def isActive (p : TelegramPlatform) : Bool :=
  p.isRunning

/-- The spec's `Running` lifecycle state: the client exists and the
running flag is set (`start()` only sets the flag when `bot` is
non-null, so this is exactly the reachable running configuration). -/
def runningState (p : TelegramPlatform) : Bool :=
  p.bot.isSome && p.isRunning

/-- `initialize()`. Returns the adapter state after the call together
with the thrown `PlatformError`, if any; `constructFails` stands for
`new Telegraf(...)` (or handler registration) throwing. On the guard
failure and on construction failure `this.bot` has not been assigned,
so the state is returned untouched. -/
def initPlatform (constructFails : Bool) (p : TelegramPlatform) :
    TelegramPlatform × Option PlatformError :=
  if !p.config.enabled || p.config.botToken = "" then
    (p, some ⟨"Telegram bot token is required", Platform.TELEGRAM⟩)
  else if constructFails then
    (p, some ⟨"Failed to initialize Telegram platform", Platform.TELEGRAM⟩)
  else
    ({ p with bot := some ⟨p.config.botToken⟩ }, none)

/-- `stop()`. `nativeStopFails` stands for `this.bot.stop()` throwing;
that exception is caught and logged, and the `isRunning = false`
assignment after it is then skipped. -/
def stopPlatform (nativeStopFails : Bool) (p : TelegramPlatform) :
    TelegramPlatform :=
  match p.bot with
  | some _ =>
    if p.isRunning then
      if nativeStopFails then p else { p with isRunning := false }
    else p
  | none => p

/-- Outcome of an outbound send operation: returned normally, raised a
`PlatformError`, or rethrew the native client's error. -/
inductive SendOutcome where
  | ok
  | platformError (e : PlatformError)
  | nativeError
  deriving DecidableEq, Repr

def SendOutcome.raisesPlatformError : SendOutcome → Bool
  | .platformError _ => true
  | _ => false

/-- `sendMessage(chatId, content, options?)`: throws `PlatformError` when
`bot` is null; otherwise forwards to the native send and rethrows its
error (after logging) if it fails. -/
def sendMessage (nativeFails : Bool) (p : TelegramPlatform)
    (_chatId _content : String) : SendOutcome :=
  match p.bot with
  | none => .platformError ⟨"Bot not initialized", Platform.TELEGRAM⟩
  | some _ => if nativeFails then .nativeError else .ok

/-- `sendPhoto(chatId, photo, caption?)`: same shape as `sendMessage`. -/
def sendPhoto (nativeFails : Bool) (p : TelegramPlatform)
    (_chatId _photo : String) : SendOutcome :=
  match p.bot with
  | none => .platformError ⟨"Bot not initialized", Platform.TELEGRAM⟩
  | some _ => if nativeFails then .nativeError else .ok

/-- `sendTyping(chatId)`: silently returns when `bot` is null, and
catches (logs only) any native failure — it never throws. -/
def sendTyping (nativeFails : Bool) (p : TelegramPlatform)
    (_chatId : String) : SendOutcome :=
  match p.bot with
  | none => .ok
  | some _ => if nativeFails then .ok else .ok

/-- `getFileUrl(fileId)`: every failure path (bot null, `getFile`
throwing) is caught inside the method and yields the empty string. -/
def getFileUrl (p : TelegramPlatform) (resolve : String → Option String)
    (fileId : String) : String :=
  match p.bot with
  | none => ""
  | some _ =>
    match resolve fileId with
    | some filePath =>
      "https://api.telegram.org/file/bot" ++ p.config.botToken ++ "/" ++ filePath
    | none => ""

/-- The `baseMessage` record built at the top of `parseMessage`
(`now` stands for `Date.now()`; `message_id || Date.now()` treats the
falsy `0` as absent). -/
def baseMessage (now : Nat) (ctx : Ctx) : Message :=
  { id := "tg_" ++ toString (match ctx.message with
      | some m => if m.message_id = 0 then now else m.message_id
      | none => now)
    userId := match ctx.fromUser with
      | some u => toString u.id
      | none => ""
    platform := Platform.TELEGRAM
    type := MessageType.TEXT
    content := ""
    metadata := { chatId := ctx.chat.map TgChat.id
                  chatType := ctx.chat.map TgChat.type
                  messageId := ctx.message.map TgMessage.message_id }
    attachments := []
    isFromBot := false
    createdAt := now
    processed := false }

/-- `parseMessage(ctx)`: dispatch on payload-field presence in the
source's order. An empty `photo` array makes `photo[length-1]`
undefined and the following field access throw, hence the `.error`
branch there; every other branch is total. -/
def parseMessage (p : TelegramPlatform) (resolve : String → Option String)
    (now : Nat) (ctx : Ctx) : Except String Message :=
  let base := baseMessage now ctx
  match ctx.message with
  | none => .ok { base with type := MessageType.TEXT, content := "Unsupported message type" }
  | some msg =>
    match msg.text with
    | some t => .ok { base with type := MessageType.TEXT, content := t }
    | none =>
    match msg.photo with
    | some ps =>
      match ps.getLast? with
      | none => .error "TypeError: Cannot read properties of undefined"
      | some photo =>
        .ok { base with
          type := MessageType.IMAGE
          content := orElseStr msg.caption ""
          attachments := [{ id := photo.file_id
                            type := MessageType.IMAGE
                            url := getFileUrl p resolve photo.file_id
                            size := photo.file_size }] }
    | none =>
    match msg.voice with
    | some voice =>
      .ok { base with
        type := MessageType.AUDIO
        content := ""
        attachments := [{ id := voice.file_id
                          type := MessageType.AUDIO
                          url := getFileUrl p resolve voice.file_id
                          mimeType := voice.mime_type
                          size := voice.file_size }] }
    | none =>
    match msg.document with
    | some doc =>
      .ok { base with
        type := MessageType.DOCUMENT
        content := orElseStr msg.caption ""
        attachments := [{ id := doc.file_id
                          type := MessageType.DOCUMENT
                          url := getFileUrl p resolve doc.file_id
                          filename := doc.file_name
                          mimeType := doc.mime_type
                          size := doc.file_size }] }
    | none =>
    match msg.sticker with
    | some sticker =>
      .ok { base with
        type := MessageType.STICKER
        content := orElseStr sticker.emoji ""
        attachments := [{ id := sticker.file_id
                          type := MessageType.STICKER
                          url := getFileUrl p resolve sticker.file_id }] }
    | none =>
    match msg.location with
    | some location =>
      .ok { base with
        type := MessageType.LOCATION
        content := "Location: " ++ location.latitude ++ ", " ++ location.longitude
        metadata := { base.metadata with
                      latitude := some location.latitude
                      longitude := some location.longitude } }
    | none =>
    match msg.contact with
    | some contact =>
      .ok { base with
        type := MessageType.CONTACT
        content := "Contact: " ++ contact.first_name ++ " " ++ orElseStr contact.last_name ""
        metadata := { base.metadata with
                      phoneNumber := some contact.phone_number
                      firstName := some contact.first_name
                      lastName := contact.last_name
                      contactUserId := contact.user_id } }
    | none =>
      .ok { base with type := MessageType.TEXT, content := "Unsupported message type" }

/-- `parseUser(ctx)`: throws when `ctx.from` is absent. -/
def parseUser (ctx : Ctx) : Except String User :=
  match ctx.fromUser with
  | none => .error "No user information available"
  | some tu =>
    .ok { id := "tg_" ++ toString tu.id
          platformId := toString tu.id
          platform := Platform.TELEGRAM
          username := tu.username
          firstName := tu.first_name
          lastName := tu.last_name
          role := UserRole.USER
          isBlocked := false
          preferences := { language := orElseStr tu.language_code "en"
                           timezone := "UTC"
                           notifications := true
                           aiEnabled := true
                           voiceEnabled := true } }

/-- The refusal reply text (`ctx.reply(...)` in `handleMessage`), kept
byte-for-byte as it appears in the source file. -/
def refusalText : String := "‚ùå You are not authorized to use this bot."

/-- The access-control condition of `handleMessage`: an allow-list is
configured and non-empty, and the sender is in it neither by native id
nor by username (an absent username is compared as `''`). -/
def allowCheckRejects (cfg : TelegramConfig) (user : User) : Bool :=
  match cfg.allowedUsers with
  | some l =>
    if l.length > 0 then
      !(l.contains user.platformId) && !(l.contains (orElseStr user.username ""))
    else false
  | none => false

/-- Observable outcome of `handleMessage`: the `message` events emitted
on the event bridge and the direct replies sent (target chat id and
text). -/
structure HandleResult where
  messageEvents : List (Message × User)
  replies : List (Option Int × String)
  deriving DecidableEq, Repr

/-- `handleMessage(ctx)`: parse message then user (any throw is caught
and the update dropped), apply the allow-list check (reject ⇒ one
direct refusal reply, no event), otherwise emit one `message` event. -/
def handleMessage (p : TelegramPlatform) (resolve : String → Option String)
    (now : Nat) (ctx : Ctx) : HandleResult :=
  match parseMessage p resolve now ctx with
  | .error _ => ⟨[], []⟩
  | .ok message =>
    match parseUser ctx with
    | .error _ => ⟨[], []⟩
    | .ok user =>
      if allowCheckRejects p.config user then
        ⟨[], [(ctx.chat.map TgChat.id, refusalText)]⟩
      else
        ⟨[(message, user)], []⟩

/-- Pixel count of a photo variant, the resolution measure for "highest
resolution". -/
def photoResolution (s : PhotoSize) : Nat :=
  s.width * s.height

/-! Shared helper lemmas. -/

/-- Evaluating `parseMessage` on an update that carries a photo payload
(and no text) with a non-empty variant list. -/
theorem parseMessage_photo (p : TelegramPlatform) (resolve : String → Option String)
    (now : Nat) (ctx : Ctx) (msg : TgMessage) (ps : List PhotoSize) (photo : PhotoSize)
    (hm : ctx.message = some msg) (htext : msg.text = none)
    (hphoto : msg.photo = some ps) (hlast : ps.getLast? = some photo) :
    parseMessage p resolve now ctx = Except.ok
      { baseMessage now ctx with
        type := MessageType.IMAGE
        content := orElseStr msg.caption ""
        attachments := [{ id := photo.file_id
                          type := MessageType.IMAGE
                          url := getFileUrl p resolve photo.file_id
                          size := photo.file_size }] } := by
  simp only [parseMessage, hm, htext, hphoto, hlast]

/-- Every failure of the file-info query makes `getFileUrl` return the
empty string, whatever the adapter state. -/
theorem getFileUrl_of_resolve_none (p : TelegramPlatform)
    (resolve : String → Option String) (fileId : String)
    (h : resolve fileId = none) :
    getFileUrl p resolve fileId = "" := by
  unfold getFileUrl
  cases p.bot <;> simp [h]

/-- `handleMessage` on the success path publishes exactly one `message`
event and sends no reply. -/
theorem handleMessage_ok (p : TelegramPlatform) (resolve : String → Option String)
    (now : Nat) (ctx : Ctx) (m : Message) (u : User)
    (hpm : parseMessage p resolve now ctx = Except.ok m)
    (hpu : parseUser ctx = Except.ok u)
    (hrej : allowCheckRejects p.config u = false) :
    handleMessage p resolve now ctx = ⟨[(m, u)], []⟩ := by
  simp [handleMessage, hpm, hpu, hrej]

/-- In a list that is pairwise non-decreasing under a measure, the last
element realizes the maximum of the measure. -/
theorem getLast?_max_of_pairwise {α : Type} {f : α → Nat} :
    ∀ {l : List α} {x : α}, l.Pairwise (fun a b => f a ≤ f b) →
      l.getLast? = some x → ∀ v ∈ l, f v ≤ f x := by
  intro l
  induction l with
  | nil => intro x _ h; cases h
  | cons a t ih =>
    intro x hp hl v hv
    cases t with
    | nil =>
      simp only [List.getLast?_singleton, Option.some.injEq] at hl
      rw [List.mem_singleton] at hv
      subst hl; subst hv
      exact le_refl _
    | cons b t2 =>
      rw [List.getLast?_cons_cons] at hl
      have hx : x ∈ b :: t2 := by
        rcases List.mem_getLast?_eq_getLast (by rw [hl]; exact rfl) with ⟨hne, hx⟩
        rw [hx]
        exact List.getLast_mem hne
      rcases List.mem_cons.mp hv with rfl | hv2
      · exact (List.pairwise_cons.mp hp).1 x hx
      · exact ih (List.pairwise_cons.mp hp).2 hl v hv2

/-! Concrete fixtures used by witnesses and counterexamples. -/

/-- An enabled configuration with a token and no allow-list. -/
def cfgPlain : TelegramConfig := { enabled := true, botToken := "T" }

/-- Uninitialized adapter (`bot = null`, not running). -/
def pUninit : TelegramPlatform := { config := cfgPlain }

/-- Initialized but not running adapter. -/
def pInit : TelegramPlatform := { config := cfgPlain, bot := some ⟨"T"⟩ }

/-- Running adapter. -/
def pRun : TelegramPlatform := { config := cfgPlain, bot := some ⟨"T"⟩, isRunning := true }

/-- A file-resolution oracle that always fails. -/
def resolveNone : String → Option String := fun _ => none

def tgUserNoName : TgUser := { id := 42, first_name := "A" }

def chatSeven : TgChat := { id := 7, type := "private" }

/-- A text update `{from: 42, chat: 7, text: "hi"}`. -/
def ctxTextHi : Ctx :=
  { message := some { message_id := 1, text := some "hi" }
    fromUser := some tgUserNoName
    chat := some chatSeven }

/-- An image update with a single variant whose resolution fails. -/
def ctxImage : Ctx :=
  { message := some { message_id := 3
                      photo := some [{ file_id := "f1", width := 1, height := 1, file_size := some 9 }] }
    fromUser := some tgUserNoName
    chat := some chatSeven }

/-! Claims. -/

/-- Claim C1, counterexample: the code does not gate outbound operations
on the `Running` state. In the Uninitialized state (hence not Running),
`sendTyping` returns normally instead of raising a `PlatformError`; and
in the Initialized-but-not-Running state, `sendMessage` forwards to the
native client without raising any error. -/
theorem sendTyping_not_running_no_platform_error :
    runningState pUninit = false ∧
    (sendTyping false pUninit "7").raisesPlatformError = false ∧
    runningState pInit = false ∧
    (sendMessage false pInit "7" "hi").raisesPlatformError = false :=
  ⟨rfl, rfl, rfl, rfl⟩

/-- Claim C1, amended: `sendMessage` and `sendPhoto` raise a
`PlatformError` exactly when the native client has not been constructed
(`bot = null`) — the `Running` flag is never consulted — while
`sendTyping` never raises at all: it returns normally both before
initialization and on native failure. -/
theorem outbound_platform_error_iff_uninitialized (nf : Bool) (p : TelegramPlatform)
    (c s : String) :
    ((sendMessage nf p c s).raisesPlatformError = true ↔ p.bot = none) ∧
    ((sendPhoto nf p c s).raisesPlatformError = true ↔ p.bot = none) ∧
    sendTyping nf p c = SendOutcome.ok := by
  obtain ⟨cfg, bot, run⟩ := p
  cases bot <;> cases nf <;>
    simp [sendMessage, sendPhoto, sendTyping, SendOutcome.raisesPlatformError]

/-- Claim C5: `initialize()` fails with a `PlatformError` whenever the
platform is disabled, the bot token is missing, or native-client
construction throws; in every such case the adapter state is returned
exactly unchanged. -/
theorem init_platform_failure_state_unchanged (cf : Bool) (p : TelegramPlatform)
    (h : p.config.enabled = false ∨ p.config.botToken = "" ∨ cf = true) :
    ((initPlatform cf p).2).isSome = true ∧ (initPlatform cf p).1 = p := by
  unfold initPlatform
  split
  · exact ⟨rfl, rfl⟩
  · split
    · exact ⟨rfl, rfl⟩
    · rename_i hguard hcf
      exfalso
      rcases h with h | h | h
      · simp [h] at hguard
      · simp [h] at hguard
      · exact hcf h

/-- Witness for C5 at a concrete input: enabled config with a token, but
native-client construction throws. -/
theorem init_platform_failure_witness :
    ((initPlatform true pUninit).2).isSome = true ∧ (initPlatform true pUninit).1 = pUninit :=
  init_platform_failure_state_unchanged true pUninit (Or.inr (Or.inr rfl))

/-- Presence of any of the seven recognized payload kinds. -/
def hasKnownKind (msg : TgMessage) : Bool :=
  msg.text.isSome || msg.photo.isSome || msg.voice.isSome || msg.document.isSome ||
  msg.sticker.isSome || msg.location.isSome || msg.contact.isSome

/-- Claim C7: an update carrying none of the recognized payload kinds
(or no message object at all) parses without throwing into a TEXT
message with the fixed "Unsupported message type" content. -/
theorem unknown_kind_yields_unsupported_text (p : TelegramPlatform)
    (resolve : String → Option String) (now : Nat) (ctx : Ctx)
    (h : ∀ msg, ctx.message = some msg → hasKnownKind msg = false) :
    ∃ m, parseMessage p resolve now ctx = Except.ok m ∧
      m.type = MessageType.TEXT ∧ m.content = "Unsupported message type" := by
  have toNone : ∀ {α : Type} (o : Option α), o.isSome = false → o = none := by
    intro α o h
    cases o with
    | none => rfl
    | some v => simp at h
  cases hm : ctx.message with
  | none =>
    have hpm : parseMessage p resolve now ctx = Except.ok
        { baseMessage now ctx with type := MessageType.TEXT
                                   content := "Unsupported message type" } := by
      simp only [parseMessage, hm]
    exact ⟨_, hpm, rfl, rfl⟩
  | some msg =>
    have hk := h msg hm
    simp only [hasKnownKind, Bool.or_eq_false_iff] at hk
    obtain ⟨⟨⟨⟨⟨⟨h1, h2⟩, h3⟩, h4⟩, h5⟩, h6⟩, h7⟩ := hk
    have hpm : parseMessage p resolve now ctx = Except.ok
        { baseMessage now ctx with type := MessageType.TEXT
                                   content := "Unsupported message type" } := by
      simp only [parseMessage, hm, toNone _ h1, toNone _ h2, toNone _ h3,
        toNone _ h4, toNone _ h5, toNone _ h6, toNone _ h7]
    exact ⟨_, hpm, rfl, rfl⟩

/-- Witness for C7 at a concrete input: a message object with only a
native id and no payload field. -/
theorem unknown_kind_witness :
    ∃ m, parseMessage pUninit resolveNone 5
        { message := some { message_id := 4 }, fromUser := some tgUserNoName } = Except.ok m ∧
      m.type = MessageType.TEXT ∧ m.content = "Unsupported message type" :=
  unknown_kind_yields_unsupported_text pUninit resolveNone 5 _
    (fun msg hmsg => by injection hmsg with h2; rw [← h2]; rfl)

/-- Claim C8: a text update parses into a TEXT message whose content is
the raw text field, unchanged. -/
theorem text_update_content_exact (p : TelegramPlatform)
    (resolve : String → Option String) (now : Nat) (ctx : Ctx)
    (msg : TgMessage) (t : String)
    (hm : ctx.message = some msg) (ht : msg.text = some t) :
    ∃ m, parseMessage p resolve now ctx = Except.ok m ∧
      m.type = MessageType.TEXT ∧ m.content = t := by
  have hpm : parseMessage p resolve now ctx = Except.ok
      { baseMessage now ctx with type := MessageType.TEXT, content := t } := by
    simp only [parseMessage, hm, ht]
  exact ⟨_, hpm, rfl, rfl⟩

/-- Witness for C8 at the concrete text update `"hi"`. -/
theorem text_update_witness :
    ∃ m, parseMessage pUninit resolveNone 5 ctxTextHi = Except.ok m ∧
      m.type = MessageType.TEXT ∧ m.content = "hi" :=
  text_update_content_exact pUninit resolveNone 5 ctxTextHi _ "hi" rfl rfl

/-- Claim C9: `stop()` is idempotent — a no-op outside the Running
configuration; from Running (with the native stop succeeding) it clears
the running flag while leaving client and configuration untouched; and
applying it twice always equals applying it once. -/
theorem stop_platform_idempotent (p : TelegramPlatform) :
    ((p.bot = none ∨ p.isRunning = false) → ∀ f, stopPlatform f p = p) ∧
    (runningState p = true →
      (stopPlatform false p).isRunning = false ∧
      (stopPlatform false p).bot = p.bot ∧
      (stopPlatform false p).config = p.config) ∧
    (∀ f, stopPlatform f (stopPlatform f p) = stopPlatform f p) := by
  obtain ⟨cfg, bot, run⟩ := p
  refine ⟨?_, ?_, ?_⟩
  · rintro (h | h) f <;> cases bot <;> cases run <;> cases f <;>
      simp_all [stopPlatform]
  · intro h
    cases bot <;> cases run <;> simp_all [stopPlatform, runningState]
  · intro f
    cases bot <;> cases run <;> cases f <;> simp [stopPlatform]

/-- Witness for C9 at concrete states: stopping a running adapter clears
the flag; stopping an uninitialized adapter is a no-op; double stop on
the running adapter (even with a throwing native stop) equals one stop. -/
theorem stop_platform_idempotent_witness :
    (stopPlatform false pRun).isRunning = false ∧
    stopPlatform false pUninit = pUninit ∧
    stopPlatform true (stopPlatform true pRun) = stopPlatform true pRun :=
  ⟨((stop_platform_idempotent pRun).2.1 rfl).1,
   (stop_platform_idempotent pUninit).1 (Or.inl rfl) false,
   (stop_platform_idempotent pRun).2.2 true⟩

/-- Claim C2: when the remote file reference of an image update fails to
resolve, parsing still succeeds with a Message of type IMAGE carrying
exactly one attachment whose url is the empty string, and the `message`
event is still published by `handleMessage` (the failure never reaches
its caller). -/
theorem image_resolve_failure_still_published (p : TelegramPlatform)
    (resolve : String → Option String) (now : Nat) (ctx : Ctx)
    (msg : TgMessage) (ps : List PhotoSize) (photo : PhotoSize) (tu : TgUser)
    (hm : ctx.message = some msg)
    (htext : msg.text = none)
    (hphoto : msg.photo = some ps)
    (hlast : ps.getLast? = some photo)
    (hres : resolve photo.file_id = none)
    (hfrom : ctx.fromUser = some tu)
    (hallow : p.config.allowedUsers = none) :
    ∃ m u, parseMessage p resolve now ctx = Except.ok m ∧
      m.type = MessageType.IMAGE ∧
      (∃ a, m.attachments = [a] ∧ a.url = "") ∧
      handleMessage p resolve now ctx = ⟨[(m, u)], []⟩ := by
  have hpm := parseMessage_photo p resolve now ctx msg ps photo hm htext hphoto hlast
  rw [getFileUrl_of_resolve_none p resolve photo.file_id hres] at hpm
  obtain ⟨u, hpu⟩ : ∃ u, parseUser ctx = Except.ok u := by
    unfold parseUser
    rw [hfrom]
    exact ⟨_, rfl⟩
  have hrej : allowCheckRejects p.config u = false := by
    simp [allowCheckRejects, hallow]
  exact ⟨_, u, hpm, rfl, ⟨_, rfl, rfl⟩,
    handleMessage_ok p resolve now ctx _ u hpm hpu hrej⟩

/-- Witness for C2: a one-variant image update whose file query fails,
on an adapter with no allow-list. -/
theorem image_resolve_failure_witness :
    ∃ m u, parseMessage pUninit resolveNone 5 ctxImage = Except.ok m ∧
      m.type = MessageType.IMAGE ∧
      (∃ a, m.attachments = [a] ∧ a.url = "") ∧
      handleMessage pUninit resolveNone 5 ctxImage = ⟨[(m, u)], []⟩ :=
  image_resolve_failure_still_published pUninit resolveNone 5 ctxImage _ _
    { file_id := "f1", width := 1, height := 1, file_size := some 9 } tgUserNoName
    rfl rfl rfl rfl rfl rfl rfl

/-- An image update whose variant list is in strictly decreasing
resolution order. -/
def psDescending : List PhotoSize :=
  [{ file_id := "big", width := 2, height := 2, file_size := some 100 },
   { file_id := "small", width := 1, height := 1, file_size := some 50 }]

def ctxDescending : Ctx :=
  { message := some { message_id := 2, photo := some psDescending }
    fromUser := some tgUserNoName
    chat := some chatSeven }

/-- Claim C3, counterexample: `parseMessage` takes the LAST entry of the
photo array without comparing resolutions, so on a variant list in
decreasing order it attaches the "small" variant (resolution 1) even
though the list offers "big" (resolution 4). -/
theorem image_picks_smaller_variant_cex :
    ∃ m a, parseMessage pInit resolveNone 5 ctxDescending = Except.ok m ∧
      m.attachments = [a] ∧
      a.id = "small" ∧
      (∃ v ∈ psDescending, v.file_id = "small" ∧ photoResolution v = 1) ∧
      (∃ w ∈ psDescending, photoResolution w = 4) ∧
      (1 : Nat) < 4 := by
  have hpm := parseMessage_photo pInit resolveNone 5 ctxDescending _ psDescending
    { file_id := "small", width := 1, height := 1, file_size := some 50 }
    rfl rfl rfl (by decide)
  exact ⟨_, _, hpm, rfl, rfl,
    ⟨{ file_id := "small", width := 1, height := 1, file_size := some 50 },
      by decide, rfl, rfl⟩,
    ⟨{ file_id := "big", width := 2, height := 2, file_size := some 100 },
      by decide, rfl⟩,
    by decide⟩

/-- Claim C3, amended: the attachment is built from the last entry of
the offered variant list; whenever the variants are listed in
non-decreasing resolution order (as the platform delivers them), that
entry has maximal resolution among all offered variants. -/
theorem image_picks_last_variant (p : TelegramPlatform)
    (resolve : String → Option String) (now : Nat) (ctx : Ctx)
    (msg : TgMessage) (ps : List PhotoSize) (photo : PhotoSize)
    (hm : ctx.message = some msg) (htext : msg.text = none)
    (hphoto : msg.photo = some ps) (hlast : ps.getLast? = some photo)
    (hsorted : ps.Pairwise (fun a b => photoResolution a ≤ photoResolution b)) :
    ∃ m a, parseMessage p resolve now ctx = Except.ok m ∧
      m.attachments = [a] ∧ a.id = photo.file_id ∧ a.size = photo.file_size ∧
      ∀ v ∈ ps, photoResolution v ≤ photoResolution photo := by
  have hpm := parseMessage_photo p resolve now ctx msg ps photo hm htext hphoto hlast
  exact ⟨_, _, hpm, rfl, rfl, rfl, getLast?_max_of_pairwise hsorted hlast⟩

/-- An image update whose variant list is in increasing resolution
order. -/
def psAscending : List PhotoSize :=
  [{ file_id := "s", width := 1, height := 1, file_size := some 10 },
   { file_id := "b", width := 2, height := 2, file_size := some 40 }]

def ctxAscending : Ctx :=
  { message := some { message_id := 6, photo := some psAscending }
    fromUser := some tgUserNoName
    chat := some chatSeven }

/-- Witness for the amended C3 on a concrete ascending variant list. -/
theorem image_picks_last_variant_witness :
    ∃ m a, parseMessage pInit resolveNone 5 ctxAscending = Except.ok m ∧
      m.attachments = [a] ∧ a.id = "b" ∧ a.size = some 40 ∧
      ∀ v ∈ psAscending,
        photoResolution v ≤ photoResolution { file_id := "b", width := 2, height := 2, file_size := some 40 } :=
  image_picks_last_variant pInit resolveNone 5 ctxAscending _ psAscending
    { file_id := "b", width := 2, height := 2, file_size := some 40 }
    rfl rfl rfl (by decide) (by decide)

/-- Claim C4: a sender absent from a configured non-empty allow-list,
both by native id and by username (an absent username standing in as
the empty string, as the code compares it), gets no `message` event and
exactly one refusal reply sent back to the update's chat. -/
theorem disallowed_sender_refused (p : TelegramPlatform)
    (resolve : String → Option String) (now : Nat) (ctx : Ctx)
    (tu : TgUser) (ch : TgChat) (m : Message) (l : List String)
    (hfrom : ctx.fromUser = some tu)
    (hchat : ctx.chat = some ch)
    (hparse : parseMessage p resolve now ctx = Except.ok m)
    (hl : p.config.allowedUsers = some l)
    (hne : l ≠ [])
    (hid : toString tu.id ∉ l)
    (husr : orElseStr tu.username "" ∉ l) :
    handleMessage p resolve now ctx = ⟨[], [(some ch.id, refusalText)]⟩ := by
  have hrej : ∀ u, parseUser ctx = Except.ok u → allowCheckRejects p.config u = true := by
    intro u hu
    simp only [parseUser, hfrom, Except.ok.injEq] at hu
    subst hu
    simp only [allowCheckRejects, hl]
    rw [if_pos (List.length_pos.mpr hne)]
    simp [List.elem_iff, hid, husr]
  obtain ⟨u, hu⟩ : ∃ u, parseUser ctx = Except.ok u := by
    unfold parseUser
    rw [hfrom]
    exact ⟨_, rfl⟩
  simp [handleMessage, hparse, hu, hrej u hu, hchat]

/-- An adapter whose allow-list is `["99"]`. -/
def pAllow99 : TelegramPlatform :=
  { config := { enabled := true, botToken := "T", allowedUsers := some ["99"] } }

/-- Witness for C4: sender 42 (no username) against allow-list `["99"]`
yields zero events and one refusal to chat 7. -/
theorem disallowed_sender_refused_witness :
    handleMessage pAllow99 resolveNone 5 ctxTextHi = ⟨[], [(some 7, refusalText)]⟩ :=
  disallowed_sender_refused pAllow99 resolveNone 5 ctxTextHi tgUserNoName chatSeven _ ["99"]
    rfl rfl rfl rfl (by decide) (by decide) (by decide)

/-- Claim C6: every parsed Message has exactly one `type`, and every
entry of its attachment list carries the same type as the Message
itself, across all media branches. -/
theorem attachment_type_matches_message_type (p : TelegramPlatform)
    (resolve : String → Option String) (now : Nat) (ctx : Ctx)
    (m : Message) (a : Attachment)
    (hm : parseMessage p resolve now ctx = Except.ok m)
    (ha : a ∈ m.attachments) :
    (∃! t : MessageType, m.type = t) ∧ a.type = m.type := by
  refine ⟨⟨m.type, rfl, fun t ht => ht.symm⟩, ?_⟩
  simp only [parseMessage] at hm
  repeat' split at hm
  all_goals first
    | exact Except.noConfusion hm
    | (injection hm with h; subst h; simp_all [baseMessage])

/-- The attachment produced for the `ctxImage` fixture. -/
def attImage : Attachment :=
  { id := "f1", type := MessageType.IMAGE, url := "", size := some 9 }

/-- The Message produced for the `ctxImage` fixture. -/
def mImage : Message :=
  { id := "tg_3"
    userId := "42"
    platform := Platform.TELEGRAM
    type := MessageType.IMAGE
    content := ""
    metadata := { chatId := some 7, chatType := some "private", messageId := some 3 }
    attachments := [attImage]
    isFromBot := false
    createdAt := 5
    processed := false }

/-- Witness for C6 at the concrete image update. -/
theorem attachment_type_matches_witness :
    (∃! t : MessageType, mImage.type = t) ∧ attImage.type = mImage.type :=
  attachment_type_matches_message_type pUninit resolveNone 5 ctxImage mImage attImage
    rfl (by decide)

/-- Claim C10: when the configured non-empty allow-list contains the
empty string, a sender with no username passes the access check (the
absent username is compared as the empty string) and the `message`
event is published, even though the sender's native id is not listed. -/
theorem empty_username_bypasses_allowlist (p : TelegramPlatform)
    (resolve : String → Option String) (now : Nat) (ctx : Ctx)
    (tu : TgUser) (m : Message) (l : List String)
    (hfrom : ctx.fromUser = some tu)
    (hnouser : tu.username = none)
    (hl : p.config.allowedUsers = some l)
    (hmem : "" ∈ l)
    (_hid : toString tu.id ∉ l)
    (hparse : parseMessage p resolve now ctx = Except.ok m) :
    ∃ u, handleMessage p resolve now ctx = ⟨[(m, u)], []⟩ ∧ u.username = none := by
  have hrej : ∀ u, parseUser ctx = Except.ok u → allowCheckRejects p.config u = false := by
    intro u hu
    simp only [parseUser, hfrom, Except.ok.injEq] at hu
    subst hu
    simp only [allowCheckRejects, hl]
    rw [if_pos (List.length_pos.mpr (List.ne_nil_of_mem hmem))]
    have hc : l.contains (orElseStr tu.username "") = true := by
      rw [hnouser]
      exact List.elem_iff.mpr hmem
    rw [hc]
    simp
  obtain ⟨u, hu, hun⟩ : ∃ u, parseUser ctx = Except.ok u ∧ u.username = tu.username := by
    unfold parseUser
    rw [hfrom]
    exact ⟨_, rfl, rfl⟩
  exact ⟨u, handleMessage_ok p resolve now ctx m u hparse hu (hrej u hu),
    hun.trans hnouser⟩

/-- An adapter whose allow-list is the singleton empty string. -/
def pAllowEmpty : TelegramPlatform :=
  { config := { enabled := true, botToken := "T", allowedUsers := some [""] } }

/-- Witness for C10: sender 42 with no username against allow-list
`[""]` gets published. -/
theorem empty_username_bypass_witness :
    ∃ m u, handleMessage pAllowEmpty resolveNone 5 ctxTextHi = ⟨[(m, u)], []⟩ ∧
      u.username = none :=
  ⟨_, empty_username_bypasses_allowlist pAllowEmpty resolveNone 5 ctxTextHi tgUserNoName _ [""]
    rfl rfl rfl (by decide) (by decide) rfl⟩

end PersonalBot
